import Mathlib

/-!
RVT-H Tool: GameCube / Wii on-disc structures (`libwiicrypto/gcn_structs.h`)

A shallow embedding of the declarations of `gcn_structs.h`:

* the C record declarations (`GCN_DiscHeader`, `GCN_Boot_Block`, `GCN_Boot_Info`,
  `DOL_Header`) are written down as values of a small type of C declarations, and
  their sizes and member offsets are *computed* by the usual C layout rules
  (member alignment, `#pragma pack(1)`, unions, anonymous members, arrays);
* the enumeration `AppLoader_Error_e` is written down as its enumerator list, and the
  enumerator values are *computed* by the C rule (an explicit value, or the previous
  value plus one).
-/

namespace RvtH

/-! ## C declarations and their layout -/

mutual
/-- The C types that occur in `gcn_structs.h`. The `Bool` of a record or union is
`true` when the declaration is under `#pragma pack(1)` / `PACKED`. -/
inductive CType where
  | char : CType
  | uint8_t : CType
  | uint32_t : CType
  | array : CType → Nat → CType
  | struct : Bool → Members → CType
  | union : Bool → Members → CType
/-- The member list of a record or union, in declaration order. A member with the
empty name is an anonymous member (its own members are reached directly). -/
inductive Members where
  | nil : Members
  | cons : String → CType → Members → Members
end

/-- Round `off` up to the next multiple of `a`. -/
def alignUp (off a : Nat) : Nat := (off + a - 1) / a * a

mutual
/-- Alignment requirement of a type. -/
def CType.align : CType → Nat
  | .char => 1
  | .uint8_t => 1
  | .uint32_t => 4
  | .array t _ => t.align
  | .struct packed ms => if packed then 1 else ms.maxAlign
  | .union packed ms => if packed then 1 else ms.maxAlign
/-- Largest alignment requirement among the members. -/
def Members.maxAlign : Members → Nat
  | .nil => 1
  | .cons _ t ms => max t.align ms.maxAlign
end

mutual
/-- The `sizeof` of a type. -/
def CType.size : CType → Nat
  | .char => 1
  | .uint8_t => 1
  | .uint32_t => 4
  | .array t n => n * t.size
  | .struct packed ms =>
      alignUp (ms.endFrom packed 0) (if packed then 1 else ms.maxAlign)
  | .union packed ms =>
      alignUp ms.maxSize (if packed then 1 else ms.maxAlign)
/-- The offset just past the last member, when the members are laid out one after
another starting at offset `off`. -/
def Members.endFrom : Members → Bool → Nat → Nat
  | .nil, _, off => off
  | .cons _ t ms, packed, off =>
      ms.endFrom packed (alignUp off (if packed then 1 else t.align) + t.size)
/-- The size of the largest member (the members of a union share offset 0). -/
def Members.maxSize : Members → Nat
  | .nil => 0
  | .cons _ t ms => max t.size ms.maxSize
end

mutual
/-- Look up the member called `name` in a record or union type (searching through
anonymous members): its byte offset from the start of the type, and its type. -/
def CType.find : CType → String → Option (Nat × CType)
  | .struct packed ms, name => ms.findFrom packed 0 name
  | .union _ ms, name => ms.findUnion name
  | _, _ => none
/-- Look up `name` among record members laid out from offset `off`. -/
def Members.findFrom : Members → Bool → Nat → String → Option (Nat × CType)
  | .nil, _, _, _ => none
  | .cons n t ms, packed, off, name =>
      let o := alignUp off (if packed then 1 else t.align)
      if n = name then some (o, t)
      else if n = "" then
        match t.find name with
        | some r => some (o + r.1, r.2)
        | none => ms.findFrom packed (o + t.size) name
      else ms.findFrom packed (o + t.size) name
/-- Look up `name` among union members (all at offset 0). -/
def Members.findUnion : Members → String → Option (Nat × CType)
  | .nil, _ => none
  | .cons n t ms, name =>
      if n = name then some (0, t)
      else if n = "" then
        match t.find name with
        | some r => some r
        | none => ms.findUnion name
      else ms.findUnion name
end

/-- Byte offset of a member: `offsetof(t, name)`. -/
def offsetOf (t : CType) (name : String) : Option Nat :=
  (t.find name).map Prod.fst

/-- The `sizeof` of a member. -/
def memberSize (t : CType) (name : String) : Option Nat :=
  (t.find name).map (fun r => r.2.size)

/-- Byte offset of element `i` of an array member: `offsetof(t, name[i])`;
`none` when the member is no array or `i` is out of range. -/
def elemOffset (t : CType) (name : String) (i : Nat) : Option Nat :=
  match t.find name with
  | some (o, .array e n) => if i < n then some (o + i * e.size) else none
  | _ => none

/-- The half-open byte range `[offset, offset + size)` a member occupies. -/
def memberRange (t : CType) (name : String) : Option (Nat × Nat) :=
  (t.find name).map (fun r => (r.1, r.1 + r.2.size))

/-- The top-level members as a list of names and sizes, in declaration order. -/
def Members.sizes : Members → List (String × Nat)
  | .nil => []
  | .cons n t ms => (n, t.size) :: ms.sizes

/-- The top-level members of a record or union. -/
def CType.members : CType → Members
  | .struct _ ms => ms
  | .union _ ms => ms
  | _ => .nil

/-- Sum of the sizes of the top-level members declared before the member `name`
(of all of them when no top-level member has that name). -/
def sizeBefore (t : CType) (name : String) : Nat :=
  ((t.members.sizes.takeWhile (fun m => m.1 != name)).map Prod.snd).sum

/-! ## The declarations of `gcn_structs.h` -/

/-- Value of the macro `GCN_MAGIC`. -/
def GCN_MAGIC : Nat := 0xC2339F3D
/-- Value of the macro `WII_MAGIC`. -/
def WII_MAGIC : Nat := 0x5D1C9EA3

/-- The record `GCN_DiscHeader` (declared under `#pragma pack(1)`, `PACKED`). -/
def GCN_DiscHeader : CType :=
  .struct true <|
    .cons "" (.union true <|
        .cons "id6" (.array .char 6) <|
        .cons "" (.struct true <|
            .cons "id4" (.array .char 4) <|
            .cons "company" (.array .char 2) .nil) .nil) <|
    .cons "disc_number" .uint8_t <|
    .cons "revision" .uint8_t <|
    .cons "audio_streaming" .uint8_t <|
    .cons "stream_buffer_size" .uint8_t <|
    .cons "reserved1" (.array .uint8_t 14) <|
    .cons "magic_wii" .uint32_t <|
    .cons "magic_gcn" .uint32_t <|
    .cons "game_title" (.array .char 64) <|
    .cons "hash_verify" .uint8_t <|
    .cons "disc_noCrypt" .uint8_t <|
    .cons "reserved2" (.array .uint8_t 6) .nil

/-- Value of the macro `GCN_Boot_Block_ADDRESS`. -/
def GCN_Boot_Block_ADDRESS : Nat := 0x420

/-- The record `GCN_Boot_Block` (declared after `#pragma pack()`: natural alignment). -/
def GCN_Boot_Block : CType :=
  .struct false <|
    .cons "bootFilePosition" .uint32_t <|
    .cons "FSTPosition" .uint32_t <|
    .cons "FSTLength" .uint32_t <|
    .cons "FSTMaxLength" .uint32_t <|
    .cons "FSTAddress" .uint32_t <|
    .cons "userPosition" .uint32_t <|
    .cons "userLength" .uint32_t <|
    .cons "reserved" .uint32_t .nil

/-- Value of the macro `GCN_Boot_Info_ADDRESS`. -/
def GCN_Boot_Info_ADDRESS : Nat := 0x440

/-- The record `GCN_Boot_Info` (natural alignment). -/
def GCN_Boot_Info : CType :=
  .struct false <|
    .cons "debugMonSize" .uint32_t <|
    .cons "simMemSize" .uint32_t <|
    .cons "argOffset" .uint32_t <|
    .cons "debugFlag" .uint32_t <|
    .cons "TRKLocation" .uint32_t <|
    .cons "TRKSize" .uint32_t <|
    .cons "region_code" .uint32_t <|
    .cons "reserved1" (.array .uint32_t 3) <|
    .cons "dolLimit" .uint32_t <|
    .cons "reserved2" .uint32_t .nil

/-- The record `DOL_Header` (natural alignment). -/
def DOL_Header : CType :=
  .struct false <|
    .cons "textData" (.array .uint32_t 7) <|
    .cons "dataData" (.array .uint32_t 11) <|
    .cons "text" (.array .uint32_t 7) <|
    .cons "data" (.array .uint32_t 11) <|
    .cons "textLen" (.array .uint32_t 7) <|
    .cons "dataLen" (.array .uint32_t 11) <|
    .cons "bss" .uint32_t <|
    .cons "bssLen" .uint32_t <|
    .cons "entry" .uint32_t <|
    .cons "padding" (.array .uint8_t 28) .nil

/-- Modelled from the spec: the disc header sits at offset 0 of a disc image
(`gcn_structs.h` has no macro for it, unlike the two boot records). -/
def GCN_DiscHeader_ADDRESS : Nat := 0

/-- The half-open byte range `[addr, addr + sizeof t)` of a record placed at `addr`. -/
def recordRange (addr : Nat) (t : CType) : Nat × Nat := (addr, addr + t.size)

/-- Two half-open byte ranges share no byte. -/
def rangesDisjoint (r s : Nat × Nat) : Prop := r.2 ≤ s.1 ∨ s.2 ≤ r.1

instance (r s : Nat × Nat) : Decidable (rangesDisjoint r s) := by
  unfold rangesDisjoint; infer_instance

/-- Names of the top-level members of a record, in declaration order. -/
def memberNames (t : CType) : List String := t.members.sizes.map Prod.fst

/-! ## The enumeration `AppLoader_Error_e` -/

/-- The enumerators of `AppLoader_Error_e`, in declaration order. -/
inductive AppLoader_Error_e where
  | APLERR_UNKNOWN
  | APLERR_OK
  | APLERR_FSTLENGTH
  | APLERR_DEBUGMONSIZE_UNALIGNED
  | APLERR_SIMMEMSIZE_UNALIGNED
  | APLERR_PHYSMEMSIZE_MINUS_SIMMEMSIZE_NOT_GT_DEBUGMONSIZE
  | APLERR_SIMMEMSIZE_NOT_LE_PHYSMEMSIZE
  | APLERR_ILLEGAL_FST_ADDRESS
  | APLERR_DOL_EXCEEDS_SIZE_LIMIT
  | APLERR_DOL_ADDR_LIMIT_RETAIL_EXCEEDED
  | APLERR_DOL_ADDR_LIMIT_DEBUG_EXCEEDED
  | APLERR_DOL_TEXTSEG2BIG
  | APLERR_DOL_DATASEG2BIG
  deriving DecidableEq, Repr, Fintype

open AppLoader_Error_e

/-- The enumerator list as the header writes it: each enumerator with its explicit
value, when it has one. -/
def AppLoader_Error_e.decl : List (AppLoader_Error_e × Option Nat) :=
  [ (APLERR_UNKNOWN, some 0),
    (APLERR_OK, some 1),
    (APLERR_FSTLENGTH, none),
    (APLERR_DEBUGMONSIZE_UNALIGNED, none),
    (APLERR_SIMMEMSIZE_UNALIGNED, none),
    (APLERR_PHYSMEMSIZE_MINUS_SIMMEMSIZE_NOT_GT_DEBUGMONSIZE, none),
    (APLERR_SIMMEMSIZE_NOT_LE_PHYSMEMSIZE, none),
    (APLERR_ILLEGAL_FST_ADDRESS, none),
    (APLERR_DOL_EXCEEDS_SIZE_LIMIT, none),
    (APLERR_DOL_ADDR_LIMIT_RETAIL_EXCEEDED, none),
    (APLERR_DOL_ADDR_LIMIT_DEBUG_EXCEEDED, none),
    (APLERR_DOL_TEXTSEG2BIG, none),
    (APLERR_DOL_DATASEG2BIG, none) ]

/-- The C rule for enumerator values: an enumerator with an explicit value takes it,
one without takes the previous enumerator's value plus one (`next`), the first
defaulting to 0. -/
def enumValuesFrom {α : Type} : Nat → List (α × Option Nat) → List (α × Nat)
  | _, [] => []
  | _, (e, some v) :: rest => (e, v) :: enumValuesFrom (v + 1) rest
  | next, (e, none) :: rest => (e, next) :: enumValuesFrom (next + 1) rest

/-- The numeric value of an enumerator of `AppLoader_Error_e`. -/
def AppLoader_Error_e.toNat (e : AppLoader_Error_e) : Nat :=
  ((enumValuesFrom 0 AppLoader_Error_e.decl).lookup e).getD 0

/-- The eleven structural-failure codes in the order in which section 4.6 of the
specification lists their checks (items 1 to 9; items 8 and 9 name two codes each). -/
def section46Codes : List AppLoader_Error_e :=
  [ APLERR_FSTLENGTH,
    APLERR_DEBUGMONSIZE_UNALIGNED,
    APLERR_SIMMEMSIZE_UNALIGNED,
    APLERR_PHYSMEMSIZE_MINUS_SIMMEMSIZE_NOT_GT_DEBUGMONSIZE,
    APLERR_SIMMEMSIZE_NOT_LE_PHYSMEMSIZE,
    APLERR_ILLEGAL_FST_ADDRESS,
    APLERR_DOL_EXCEEDS_SIZE_LIMIT,
    APLERR_DOL_ADDR_LIMIT_RETAIL_EXCEEDED,
    APLERR_DOL_ADDR_LIMIT_DEBUG_EXCEEDED,
    APLERR_DOL_TEXTSEG2BIG,
    APLERR_DOL_DATASEG2BIG ]

/-! ## DiscHeaderReader (classification by magic words) -/

/-- The decoded fields of a disc header the reader works on (the two magic words are
the 32-bit words of the members `magic_wii` and `magic_gcn`). -/
structure DiscHeader where
  id6 : List Nat
  disc_number : Nat
  revision : Nat
  magic_wii : Nat
  magic_gcn : Nat
  game_title : List Nat
  hash_verify : Nat
  disc_noCrypt : Nat
  deriving DecidableEq, Repr

/-- Disc kinds the reader tells apart. -/
inductive DiscKind where
  | GameCube
  | Wii
  deriving DecidableEq, Repr

/-- Failure of the disc header reader. -/
inductive FormatError where
  | UnrecognizedDisc
  deriving DecidableEq, Repr

/-- Modelled from the spec: the disc-kind decision of DiscHeaderReader (section 4.2),
whose code is not among the sources. "GCN magic present and Wii magic absent ⇒
GameCube; Wii magic present ⇒ Wii (GameCube magic may also be present in the Wii case
and is ignored). Neither present ⇒ fails with `UnrecognizedDisc`." -/
def DiscHeaderReader.classify (h : DiscHeader) : Except FormatError DiscKind :=
  if h.magic_wii = WII_MAGIC then .ok .Wii
  else if h.magic_gcn = GCN_MAGIC then .ok .GameCube
  else .error .UnrecognizedDisc

/-! ## ApploaderValidator (ordered structural checks) -/

/-- Decoded `GCN_Boot_Block`. -/
structure BootBlock where
  bootFilePosition : Nat
  FSTPosition : Nat
  FSTLength : Nat
  FSTMaxLength : Nat
  FSTAddress : Nat
  userPosition : Nat
  userLength : Nat
  reserved : Nat
  deriving DecidableEq, Repr

/-- Decoded `GCN_Boot_Info`. -/
structure BootInfo where
  debugMonSize : Nat
  simMemSize : Nat
  argOffset : Nat
  debugFlag : Nat
  TRKLocation : Nat
  TRKSize : Nat
  region_code : Nat
  dolLimit : Nat
  deriving DecidableEq, Repr

/-- Decoded section table of a `DOL_Header`: file offsets, load addresses and lengths
of the text and data sections. -/
structure DOLSections where
  textData : List Nat
  dataData : List Nat
  text : List Nat
  data : List Nat
  textLen : List Nat
  dataLen : List Nat
  deriving DecidableEq, Repr

/-- The inputs of the validator (section 4.6): boot block, boot info, DOL section
table, the physical memory size, and the address limit together with the build kind
it belongs to. -/
structure ApploaderInput where
  bb : BootBlock
  bi : BootInfo
  dol : DOLSections
  physMemSize : Nat
  debugBuild : Bool
  addrLimit : Nat
  deriving DecidableEq, Repr

/-- The per-section size caps of the validator. The spec names them ("its
per-section cap") without giving their values, so they are parameters. -/
structure SectionCaps where
  textCap : Nat
  dataCap : Nat
  deriving DecidableEq, Repr

/-- Unsigned 32-bit subtraction (the sizes are `uint32_t` members, and the spec has
them compared as unsigned). -/
def sub32 (a b : Nat) : Nat := (a % 2 ^ 32 + 2 ^ 32 - b % 2 ^ 32) % 2 ^ 32

/-- Total size of the DOL text and data sections. -/
def dolTotalSize (d : DOLSections) : Nat := d.textLen.sum + d.dataLen.sum

/-- Some active section (length not 0) has a load address above `limit`. A section of
length 0 is inactive and takes no part in address checks. -/
def anyAddrAbove (limit : Nat) (addrs lens : List Nat) : Bool :=
  (addrs.zip lens).any (fun s => s.2 != 0 && decide (limit < s.1))

/-- Check 1: `FSTLength > FSTMaxLength`. -/
def failsFSTLength (i : ApploaderInput) : Bool := decide (i.bb.FSTMaxLength < i.bb.FSTLength)
/-- Check 2: `debugMonSize` is not a multiple of 32. -/
def failsDebugMonAlign (i : ApploaderInput) : Bool := i.bi.debugMonSize % 32 != 0
/-- Check 3: `simMemSize` is not a multiple of 32. -/
def failsSimMemAlign (i : ApploaderInput) : Bool := i.bi.simMemSize % 32 != 0
/-- Check 4: `(physMemSize - simMemSize) <= debugMonSize`. -/
def failsMemDiff (i : ApploaderInput) : Bool :=
  decide (sub32 i.physMemSize i.bi.simMemSize ≤ i.bi.debugMonSize)
/-- Check 5: `simMemSize > physMemSize`. -/
def failsSimMemSize (i : ApploaderInput) : Bool := decide (i.physMemSize < i.bi.simMemSize)
/-- Check 6: FST RAM address `>= 0x81700000`. -/
def failsFSTAddress (i : ApploaderInput) : Bool := decide (0x81700000 ≤ i.bb.FSTAddress)
/-- Check 7: total DOL size exceeds `dolLimit`, when `dolLimit != 0`. -/
def failsDolLimit (i : ApploaderInput) : Bool :=
  i.bi.dolLimit != 0 && decide (i.bi.dolLimit < dolTotalSize i.dol)
/-- Check 8: a text or data section is loaded above the address ceiling. -/
def failsAddrLimit (i : ApploaderInput) : Bool :=
  anyAddrAbove i.addrLimit i.dol.text i.dol.textLen ||
    anyAddrAbove i.addrLimit i.dol.data i.dol.dataLen
/-- Check 9, text: a text section is longer than the text cap. -/
def failsTextSeg (c : SectionCaps) (i : ApploaderInput) : Bool :=
  i.dol.textLen.any (fun n => decide (c.textCap < n))
/-- Check 9, data: a data section is longer than the data cap. -/
def failsDataSeg (c : SectionCaps) (i : ApploaderInput) : Bool :=
  i.dol.dataLen.any (fun n => decide (c.dataCap < n))

/-- Modelled from the spec: ApploaderValidator (section 4.6), whose code is not among
the sources. "Checks run in a fixed order; the first failing check's code is
returned, `APLERR_OK` otherwise", items 1 to 9 in the order of the spec; in item 8 a
retail build answers with the retail code and a debug build with the debug code. -/
def ApploaderValidator (c : SectionCaps) (i : ApploaderInput) : AppLoader_Error_e :=
  if failsFSTLength i then APLERR_FSTLENGTH
  else if failsDebugMonAlign i then APLERR_DEBUGMONSIZE_UNALIGNED
  else if failsSimMemAlign i then APLERR_SIMMEMSIZE_UNALIGNED
  else if failsMemDiff i then APLERR_PHYSMEMSIZE_MINUS_SIMMEMSIZE_NOT_GT_DEBUGMONSIZE
  else if failsSimMemSize i then APLERR_SIMMEMSIZE_NOT_LE_PHYSMEMSIZE
  else if failsFSTAddress i then APLERR_ILLEGAL_FST_ADDRESS
  else if failsDolLimit i then APLERR_DOL_EXCEEDS_SIZE_LIMIT
  else if failsAddrLimit i then
    (if i.debugBuild then APLERR_DOL_ADDR_LIMIT_DEBUG_EXCEEDED
     else APLERR_DOL_ADDR_LIMIT_RETAIL_EXCEEDED)
  else if failsTextSeg c i then APLERR_DOL_TEXTSEG2BIG
  else if failsDataSeg c i then APLERR_DOL_DATASEG2BIG
  else APLERR_OK

/-- One check of the validator: its failure condition and the code it yields. -/
structure Check where
  fails : ApploaderInput → Bool
  code : AppLoader_Error_e

/-- The checks of section 4.6 as the specification words them: a list, in the order of the
section, of failure conditions with the code each one yields. -/
def section46Checks (c : SectionCaps) : List Check :=
  [ ⟨failsFSTLength, APLERR_FSTLENGTH⟩,
    ⟨failsDebugMonAlign, APLERR_DEBUGMONSIZE_UNALIGNED⟩,
    ⟨failsSimMemAlign, APLERR_SIMMEMSIZE_UNALIGNED⟩,
    ⟨failsMemDiff, APLERR_PHYSMEMSIZE_MINUS_SIMMEMSIZE_NOT_GT_DEBUGMONSIZE⟩,
    ⟨failsSimMemSize, APLERR_SIMMEMSIZE_NOT_LE_PHYSMEMSIZE⟩,
    ⟨failsFSTAddress, APLERR_ILLEGAL_FST_ADDRESS⟩,
    ⟨failsDolLimit, APLERR_DOL_EXCEEDS_SIZE_LIMIT⟩,
    ⟨fun i => failsAddrLimit i && !i.debugBuild, APLERR_DOL_ADDR_LIMIT_RETAIL_EXCEEDED⟩,
    ⟨fun i => failsAddrLimit i && i.debugBuild, APLERR_DOL_ADDR_LIMIT_DEBUG_EXCEEDED⟩,
    ⟨failsTextSeg c, APLERR_DOL_TEXTSEG2BIG⟩,
    ⟨failsDataSeg c, APLERR_DOL_DATASEG2BIG⟩ ]

/-- The code of the first failing check of a list of checks, `APLERR_OK` when none
fails. -/
def firstFailing (checks : List Check) (i : ApploaderInput) : AppLoader_Error_e :=
  match checks.find? (fun k => k.fails i) with
  | some k => k.code
  | none => APLERR_OK

/-- A concrete validator input that violates conditions 1 and 3 of section 4.6 at
once (`FSTLength` 0x2000 above `FSTMaxLength` 0x1000, `simMemSize` 0x1800001 not a
multiple of 32) and nothing else. -/
def inputFailing1And3 : ApploaderInput :=
  { bb := ⟨0x2440, 0x40000, 0x2000, 0x1000, 0x81000000, 0, 0, 0⟩
    bi := ⟨0, 0x1800001, 0, 0, 0, 0, 1, 0⟩
    dol := ⟨[0x100], [0x2100], [0x80003100], [0x80005100], [0x2000], [0x1000]⟩
    physMemSize := 0x1800000 + 0x1000000
    debugBuild := false
    addrLimit := 0x80700000 }

/-- Section caps used with `inputFailing1And3`. -/
def capsExample : SectionCaps := ⟨0x400000, 0x700000⟩

/-! ## Theorems -/

/-- C1: in `AppLoader_Error_e`, `APLERR_UNKNOWN` is 0, `APLERR_OK` is 1, and the eleven
structural-failure codes take the values 2 to 12 in the order in which section 4.6
lists their checks; so a code whose check comes earlier has the strictly smaller
value, and the map from codes to values is injective. -/
theorem apploader_error_values :
    APLERR_UNKNOWN.toNat = 0 ∧ APLERR_OK.toNat = 1 ∧
    APLERR_FSTLENGTH.toNat = 2 ∧
    APLERR_DEBUGMONSIZE_UNALIGNED.toNat = 3 ∧
    APLERR_SIMMEMSIZE_UNALIGNED.toNat = 4 ∧
    APLERR_PHYSMEMSIZE_MINUS_SIMMEMSIZE_NOT_GT_DEBUGMONSIZE.toNat = 5 ∧
    APLERR_SIMMEMSIZE_NOT_LE_PHYSMEMSIZE.toNat = 6 ∧
    APLERR_ILLEGAL_FST_ADDRESS.toNat = 7 ∧
    APLERR_DOL_EXCEEDS_SIZE_LIMIT.toNat = 8 ∧
    APLERR_DOL_ADDR_LIMIT_RETAIL_EXCEEDED.toNat = 9 ∧
    APLERR_DOL_ADDR_LIMIT_DEBUG_EXCEEDED.toNat = 10 ∧
    APLERR_DOL_TEXTSEG2BIG.toNat = 11 ∧
    APLERR_DOL_DATASEG2BIG.toNat = 12 ∧
    section46Codes.map AppLoader_Error_e.toNat = [2, 3, 4, 5, 6, 7, 8, 9, 10, 11, 12] ∧
    section46Codes.Pairwise (fun a b => a.toNat < b.toNat) ∧
    Function.Injective AppLoader_Error_e.toNat := by
  refine ⟨rfl, rfl, rfl, rfl, rfl, rfl, rfl, rfl, rfl, rfl, rfl, rfl, rfl, rfl,
    by decide, ?_⟩
  intro a b h
  cases a <;> cases b <;> first | rfl | exact absurd h (by decide)

/-- C2: in the packed `GCN_DiscHeader`, `magic_wii` occupies bytes 0x18..0x1B and
`magic_gcn` bytes 0x1C..0x1F, each offset being the sum of the sizes of the members
before it; `WII_MAGIC` is 0x5D1C9EA3 and `GCN_MAGIC` is 0xC2339F3D; the two differ, so
no word is both. -/
theorem disc_header_magic_layout :
    memberRange GCN_DiscHeader "magic_wii" = some (0x18, 0x1B + 1) ∧
    memberRange GCN_DiscHeader "magic_gcn" = some (0x1C, 0x1F + 1) ∧
    offsetOf GCN_DiscHeader "magic_wii" = some (sizeBefore GCN_DiscHeader "magic_wii") ∧
    offsetOf GCN_DiscHeader "magic_gcn" = some (sizeBefore GCN_DiscHeader "magic_gcn") ∧
    WII_MAGIC = 0x5D1C9EA3 ∧ GCN_MAGIC = 0xC2339F3D ∧
    WII_MAGIC ≠ GCN_MAGIC ∧
    ∀ w : Nat, ¬ (w = WII_MAGIC ∧ w = GCN_MAGIC) := by
  refine ⟨by decide, by decide, by decide, by decide, rfl, rfl, by decide, ?_⟩
  rintro w ⟨h1, h2⟩
  exact absurd (h1.symm.trans h2) (by decide)

/-- C3: `GCN_Boot_Block` starts at disc offset 0x420 and is 32 bytes, eight 32-bit
members; `GCN_Boot_Info` starts at 0x440 and is 48 bytes, twelve 32-bit words with
`reserved1[3]` counted as three; `dolLimit` is at byte offset 40 of the record. -/
theorem boot_records_layout :
    GCN_Boot_Block_ADDRESS = 0x420 ∧
    GCN_Boot_Block.size = 32 ∧
    GCN_Boot_Block.members.sizes.map Prod.snd = List.replicate 8 4 ∧
    GCN_Boot_Info_ADDRESS = 0x440 ∧
    GCN_Boot_Info.size = 48 ∧
    GCN_Boot_Info.size = 12 * CType.uint32_t.size ∧
    GCN_Boot_Info.members.sizes.map Prod.snd = [4, 4, 4, 4, 4, 4, 4, 3 * 4, 4, 4] ∧
    memberSize GCN_Boot_Info "reserved1" = some (3 * CType.uint32_t.size) ∧
    offsetOf GCN_Boot_Info "dolLimit" = some 40 := by
  refine ⟨rfl, ?_, ?_, rfl, ?_, ?_, ?_, ?_, ?_⟩ <;> decide

/-- C4: `DOL_Header` is 256 bytes: six arrays `textData[7]`, `dataData[11]`,
`text[7]`, `data[11]`, `textLen[7]`, `dataLen[11]` of 32-bit words (216 bytes), then
`bss`, `bssLen`, `entry` (12 bytes) and 28 bytes of padding. File offset, load address
and length of text section `i` are at 4*i, 0x48 + 4*i, 0x90 + 4*i, those of data
section `j` at 0x1C + 4*j, 0x64 + 4*j, 0xAC + 4*j; `bss`, `bssLen`, `entry` are at
0xD8, 0xDC, 0xE0. -/
theorem dol_header_layout :
    DOL_Header.size = 256 ∧
    DOL_Header.members.sizes =
      [("textData", 7 * 4), ("dataData", 11 * 4), ("text", 7 * 4), ("data", 11 * 4),
       ("textLen", 7 * 4), ("dataLen", 11 * 4), ("bss", 4), ("bssLen", 4), ("entry", 4),
       ("padding", 28)] ∧
    (7 + 11) * 3 * 4 = 216 ∧ 216 + 12 + 28 = DOL_Header.size ∧
    (∀ i, i < 7 →
      elemOffset DOL_Header "textData" i = some (4 * i) ∧
      elemOffset DOL_Header "text" i = some (0x48 + 4 * i) ∧
      elemOffset DOL_Header "textLen" i = some (0x90 + 4 * i)) ∧
    (∀ j, j < 11 →
      elemOffset DOL_Header "dataData" j = some (0x1C + 4 * j) ∧
      elemOffset DOL_Header "data" j = some (0x64 + 4 * j) ∧
      elemOffset DOL_Header "dataLen" j = some (0xAC + 4 * j)) ∧
    offsetOf DOL_Header "bss" = some 0xD8 ∧
    offsetOf DOL_Header "bssLen" = some 0xDC ∧
    offsetOf DOL_Header "entry" = some 0xE0 ∧
    memberRange DOL_Header "padding" = some (0xE4, 0xE4 + 28) := by
  refine ⟨?_, ?_, ?_, ?_, ?_, ?_, ?_, ?_, ?_, ?_⟩ <;> decide

/-- C4, at concrete sections: the last text section and the last data section. -/
theorem dol_header_layout_witness :
    (elemOffset DOL_Header "textData" 6 = some (4 * 6) ∧
      elemOffset DOL_Header "text" 6 = some (0x48 + 4 * 6) ∧
      elemOffset DOL_Header "textLen" 6 = some (0x90 + 4 * 6)) ∧
    (elemOffset DOL_Header "dataData" 10 = some (0x1C + 4 * 10) ∧
      elemOffset DOL_Header "data" 10 = some (0x64 + 4 * 10) ∧
      elemOffset DOL_Header "dataLen" 10 = some (0xAC + 4 * 10)) :=
  ⟨dol_header_layout.2.2.2.2.1 6 (by decide),
   dol_header_layout.2.2.2.2.2.1 10 (by decide)⟩

/-- C9: `GCN_DiscHeader` is 0x68 bytes with no padding, and every member sits at the
sum of the sizes of the members before it: `id6` at 0x00 (6 bytes; `id4` at 0x00,
4 bytes, then `company` at 0x04, 2 bytes), `disc_number` 0x06, `revision` 0x07,
`audio_streaming` 0x08, `stream_buffer_size` 0x09, `reserved1` 0x0A (14 bytes),
`magic_wii` 0x18, `magic_gcn` 0x1C, `game_title` 0x20 (64 bytes), `hash_verify` 0x60,
`disc_noCrypt` 0x61, `reserved2` 0x62 (6 bytes), ending at 0x68. -/
theorem disc_header_layout :
    GCN_DiscHeader.size = 0x68 ∧
    (GCN_DiscHeader.members.sizes.map Prod.snd).sum = GCN_DiscHeader.size ∧
    memberRange GCN_DiscHeader "id6" = some (0x00, 0x00 + 6) ∧
    memberRange GCN_DiscHeader "id4" = some (0x00, 0x00 + 4) ∧
    memberRange GCN_DiscHeader "company" = some (0x04, 0x04 + 2) ∧
    memberRange GCN_DiscHeader "disc_number" = some (0x06, 0x07) ∧
    memberRange GCN_DiscHeader "revision" = some (0x07, 0x08) ∧
    memberRange GCN_DiscHeader "audio_streaming" = some (0x08, 0x09) ∧
    memberRange GCN_DiscHeader "stream_buffer_size" = some (0x09, 0x0A) ∧
    memberRange GCN_DiscHeader "reserved1" = some (0x0A, 0x0A + 14) ∧
    memberRange GCN_DiscHeader "magic_wii" = some (0x18, 0x1C) ∧
    memberRange GCN_DiscHeader "magic_gcn" = some (0x1C, 0x20) ∧
    memberRange GCN_DiscHeader "game_title" = some (0x20, 0x20 + 64) ∧
    memberRange GCN_DiscHeader "hash_verify" = some (0x60, 0x61) ∧
    memberRange GCN_DiscHeader "disc_noCrypt" = some (0x61, 0x62) ∧
    memberRange GCN_DiscHeader "reserved2" = some (0x62, 0x62 + 6) ∧
    0x62 + 6 = GCN_DiscHeader.size ∧
    (∀ name ∈ (memberNames GCN_DiscHeader).tail,
      offsetOf GCN_DiscHeader name = some (sizeBefore GCN_DiscHeader name)) := by
  refine ⟨?_, ?_, ?_, ?_, ?_, ?_, ?_, ?_, ?_, ?_, ?_, ?_, ?_, ?_, ?_, ?_, ?_, ?_⟩ <;>
    decide

/-- C9 at concrete members: `game_title` and `reserved2` sit at the sum of the sizes
of the members before them. -/
theorem disc_header_layout_witness :
    offsetOf GCN_DiscHeader "game_title" = some (sizeBefore GCN_DiscHeader "game_title") ∧
    offsetOf GCN_DiscHeader "reserved2" = some (sizeBefore GCN_DiscHeader "reserved2") :=
  ⟨disc_header_layout.2.2.2.2.2.2.2.2.2.2.2.2.2.2.2.2.2 "game_title" (by decide),
   disc_header_layout.2.2.2.2.2.2.2.2.2.2.2.2.2.2.2.2.2 "reserved2" (by decide)⟩

/-- C10: the disc header occupies [0, 0x68), the boot block [0x420, 0x440), the boot
info starts where the boot block ends and occupies [0x440, 0x470); hence a buffer of
at least 0x470 bytes holds all three records, at pairwise disjoint byte ranges. -/
theorem disc_records_disjoint (n : Nat) (hn : 0x470 ≤ n) :
    recordRange GCN_DiscHeader_ADDRESS GCN_DiscHeader = (0, 0x68) ∧
    recordRange GCN_Boot_Block_ADDRESS GCN_Boot_Block =
      (GCN_Boot_Block_ADDRESS, GCN_Boot_Block_ADDRESS + 32) ∧
    recordRange GCN_Boot_Block_ADDRESS GCN_Boot_Block = (0x420, 0x440) ∧
    GCN_Boot_Info_ADDRESS = GCN_Boot_Block_ADDRESS + GCN_Boot_Block.size ∧
    recordRange GCN_Boot_Info_ADDRESS GCN_Boot_Info = (0x440, 0x470) ∧
    (recordRange GCN_DiscHeader_ADDRESS GCN_DiscHeader).2 ≤ n ∧
    (recordRange GCN_Boot_Block_ADDRESS GCN_Boot_Block).2 ≤ n ∧
    (recordRange GCN_Boot_Info_ADDRESS GCN_Boot_Info).2 ≤ n ∧
    rangesDisjoint (recordRange GCN_DiscHeader_ADDRESS GCN_DiscHeader)
      (recordRange GCN_Boot_Block_ADDRESS GCN_Boot_Block) ∧
    rangesDisjoint (recordRange GCN_DiscHeader_ADDRESS GCN_DiscHeader)
      (recordRange GCN_Boot_Info_ADDRESS GCN_Boot_Info) ∧
    rangesDisjoint (recordRange GCN_Boot_Block_ADDRESS GCN_Boot_Block)
      (recordRange GCN_Boot_Info_ADDRESS GCN_Boot_Info) := by
  have h1 : recordRange GCN_DiscHeader_ADDRESS GCN_DiscHeader = (0, 0x68) := by decide
  have h2 : recordRange GCN_Boot_Block_ADDRESS GCN_Boot_Block = (0x420, 0x440) := by decide
  have h3 : recordRange GCN_Boot_Info_ADDRESS GCN_Boot_Info = (0x440, 0x470) := by decide
  refine ⟨h1, by decide, h2, by decide, h3, ?_, ?_, ?_, by decide, by decide, by decide⟩
  · rw [h1]; show 0x68 ≤ n; omega
  · rw [h2]; show 0x440 ≤ n; omega
  · rw [h3]; exact hn

/-- C10 at a buffer of exactly 0x470 bytes. -/
theorem disc_records_disjoint_witness :
    0x470 ≤ 0x470 ∧
    (recordRange GCN_Boot_Info_ADDRESS GCN_Boot_Info).2 ≤ 0x470 ∧
    rangesDisjoint (recordRange GCN_Boot_Block_ADDRESS GCN_Boot_Block)
      (recordRange GCN_Boot_Info_ADDRESS GCN_Boot_Info) :=
  ⟨by decide, (disc_records_disjoint 0x470 (by decide)).2.2.2.2.2.2.2.1,
   (disc_records_disjoint 0x470 (by decide)).2.2.2.2.2.2.2.2.2.2⟩

/-- C5, as stated, fails: `AppLoader_Error_e` does not have twelve enumerators. -/
theorem apploader_error_not_twelve :
    ¬ (AppLoader_Error_e.decl.length = 12 ∨ Fintype.card AppLoader_Error_e = 12) := by
  decide

/-- C5, amended: `AppLoader_Error_e` is a closed type with exactly thirteen cases,
`APLERR_UNKNOWN`, `APLERR_OK` and the eleven structural-failure codes of section 4.6;
there is no further case. -/
theorem apploader_error_thirteen :
    AppLoader_Error_e.decl.length = 13 ∧
    Fintype.card AppLoader_Error_e = 13 ∧
    (AppLoader_Error_e.decl.map Prod.fst).Nodup ∧
    AppLoader_Error_e.decl.map Prod.fst = APLERR_UNKNOWN :: APLERR_OK :: section46Codes ∧
    ∀ e : AppLoader_Error_e, e ∈ APLERR_UNKNOWN :: APLERR_OK :: section46Codes := by
  refine ⟨rfl, rfl, by decide, rfl, ?_⟩
  intro e
  cases e <;> decide

/-- C7: a header with the GameCube magic and without the Wii magic is classified
GameCube; a header with the Wii magic is classified Wii whatever `magic_gcn` is; a
header with neither magic fails with `UnrecognizedDisc`; the three cases are
exhaustive and mutually exclusive. -/
theorem classify_by_magic (h : DiscHeader) :
    (DiscHeaderReader.classify h = .ok .GameCube ↔
      (h.magic_gcn = GCN_MAGIC ∧ h.magic_wii ≠ WII_MAGIC)) ∧
    (DiscHeaderReader.classify h = .ok .Wii ↔ h.magic_wii = WII_MAGIC) ∧
    (DiscHeaderReader.classify h = .error .UnrecognizedDisc ↔
      (h.magic_wii ≠ WII_MAGIC ∧ h.magic_gcn ≠ GCN_MAGIC)) ∧
    ((h.magic_gcn = GCN_MAGIC ∧ h.magic_wii ≠ WII_MAGIC) ∨ h.magic_wii = WII_MAGIC ∨
      (h.magic_wii ≠ WII_MAGIC ∧ h.magic_gcn ≠ GCN_MAGIC)) ∧
    ¬ ((h.magic_gcn = GCN_MAGIC ∧ h.magic_wii ≠ WII_MAGIC) ∧ h.magic_wii = WII_MAGIC) ∧
    ¬ ((h.magic_gcn = GCN_MAGIC ∧ h.magic_wii ≠ WII_MAGIC) ∧
        (h.magic_wii ≠ WII_MAGIC ∧ h.magic_gcn ≠ GCN_MAGIC)) ∧
    ¬ (h.magic_wii = WII_MAGIC ∧ (h.magic_wii ≠ WII_MAGIC ∧ h.magic_gcn ≠ GCN_MAGIC)) := by
  unfold DiscHeaderReader.classify
  by_cases hw : h.magic_wii = WII_MAGIC <;> by_cases hg : h.magic_gcn = GCN_MAGIC <;>
    simp [hw, hg]

/-- C7 at concrete headers: GameCube magic only, both magics, neither. -/
theorem classify_by_magic_witness :
    DiscHeaderReader.classify ⟨[], 0, 0, 0, 0xC2339F3D, [], 0, 0⟩ = .ok .GameCube ∧
    DiscHeaderReader.classify ⟨[], 0, 0, 0x5D1C9EA3, 0xC2339F3D, [], 0, 0⟩ = .ok .Wii ∧
    DiscHeaderReader.classify ⟨[], 0, 0, 0, 0, [], 0, 0⟩ = .error .UnrecognizedDisc :=
  ⟨(classify_by_magic ⟨[], 0, 0, 0, 0xC2339F3D, [], 0, 0⟩).1.2 (by decide),
   (classify_by_magic ⟨[], 0, 0, 0x5D1C9EA3, 0xC2339F3D, [], 0, 0⟩).2.1.2 (by decide),
   (classify_by_magic ⟨[], 0, 0, 0, 0, [], 0, 0⟩).2.2.1.2 (by decide)⟩

/-- Unfolding `firstFailing` over a non-empty list of checks. -/
theorem firstFailing_cons (k : Check) (ks : List Check) (i : ApploaderInput) :
    firstFailing (k :: ks) i = if k.fails i = true then k.code else firstFailing ks i := by
  unfold firstFailing
  by_cases h : k.fails i = true <;> simp [List.find?_cons, h]

/-- The result of `firstFailing` is `APLERR_OK` or the code of one of the checks. -/
theorem firstFailing_mem (ks : List Check) (i : ApploaderInput) :
    firstFailing ks i = APLERR_OK ∨ firstFailing ks i ∈ ks.map Check.code := by
  induction ks with
  | nil => left; rfl
  | cons k ks ih =>
    rw [firstFailing_cons]
    by_cases h : k.fails i = true
    · right; simp [h]
    · rcases ih with ih | ih
      · left; simp [h, ih]
      · right; simp only [h, if_false, List.map_cons, List.mem_cons]; exact Or.inr ih

/-- The function `firstFailing` answers `APLERR_OK` exactly when no check fails, provided no check
carries the code `APLERR_OK`. -/
theorem firstFailing_ok_iff (ks : List Check) (i : ApploaderInput)
    (hok : APLERR_OK ∉ ks.map Check.code) :
    firstFailing ks i = APLERR_OK ↔ ∀ k ∈ ks, k.fails i = false := by
  induction ks with
  | nil => simp [firstFailing]
  | cons k ks ih =>
    have hk : ¬ k.code = APLERR_OK := fun h => hok (by simp [h])
    have hok2 : APLERR_OK ∉ ks.map Check.code := fun h => hok (by
      simp only [List.map_cons, List.mem_cons]; exact Or.inr h)
    rw [firstFailing_cons]
    cases h : k.fails i with
    | true => simp [h, hk]
    | false =>
      simp only [Bool.false_eq_true, if_false, List.mem_cons, forall_eq_or_imp, h, true_and]
      exact ih hok2

/-- With pairwise distinct codes, `firstFailing` answers the code of the check at
position `n` exactly when that check fails and no check before it does. -/
theorem firstFailing_eq_iff (ks : List Check) (i : ApploaderInput)
    (hnd : (ks.map Check.code).Nodup) (hok : APLERR_OK ∉ ks.map Check.code) :
    ∀ (n : Nat) (k : Check), ks[n]? = some k →
      (firstFailing ks i = k.code ↔
        (k.fails i = true ∧
          ∀ (m : Nat) (q : Check), m < n → ks[m]? = some q → q.fails i = false)) := by
  induction ks with
  | nil => intro n k h; simp at h
  | cons c cs ih =>
    have hc : c.code ∉ cs.map Check.code := (List.nodup_cons.mp hnd).1
    have hnd2 : (cs.map Check.code).Nodup := (List.nodup_cons.mp hnd).2
    have hcok : ¬ c.code = APLERR_OK := fun h => hok (by simp [h])
    have hok2 : APLERR_OK ∉ cs.map Check.code := fun h => hok (by
      simp only [List.map_cons, List.mem_cons]; exact Or.inr h)
    intro n k h
    rw [firstFailing_cons]
    cases n with
    | zero =>
      simp only [List.getElem?_cons_zero, Option.some.injEq] at h
      subst h
      cases h1 : c.fails i with
      | true => simp
      | false =>
        simp only [Bool.false_eq_true, if_false, false_and, iff_false]
        intro he
        rcases firstFailing_mem cs i with hm | hm
        · exact hcok (he ▸ hm)
        · exact hc (he ▸ hm)
    | succ n =>
      simp only [List.getElem?_cons_succ] at h
      have hk : k.code ∈ cs.map Check.code :=
        List.mem_map_of_mem Check.code (List.getElem?_mem h)
      cases h1 : c.fails i with
      | true =>
        simp only [if_true]
        constructor
        · intro he; exact absurd (he ▸ hk) hc
        · rintro ⟨_, h2⟩
          have := h2 0 c (Nat.succ_pos n) (by simp)
          rw [h1] at this; exact absurd this (by simp)
      | false =>
        simp only [Bool.false_eq_true, if_false]
        rw [ih hnd2 hok2 n k h]
        constructor
        · rintro ⟨hk1, h2⟩
          refine ⟨hk1, ?_⟩
          intro m q hm hq
          cases m with
          | zero =>
            simp only [List.getElem?_cons_zero, Option.some.injEq] at hq
            subst hq; exact h1
          | succ m =>
            simp only [List.getElem?_cons_succ] at hq
            exact h2 m q (Nat.lt_of_succ_lt_succ hm) hq
        · rintro ⟨hk1, h2⟩
          refine ⟨hk1, ?_⟩
          intro m q hm hq
          exact h2 (m + 1) q (Nat.succ_lt_succ hm) (by simpa using hq)

/-- The validator, written as a chain of tests, is `firstFailing` over the checks of
section 4.6. -/
theorem apploaderValidator_eq_firstFailing (c : SectionCaps) (i : ApploaderInput) :
    ApploaderValidator c i = firstFailing (section46Checks c) i := by
  unfold ApploaderValidator section46Checks
  simp only [firstFailing_cons]
  cases i.debugBuild <;> simp [firstFailing]

/-- C6: for every input the validator returns the code of the first check that fails,
in the order of section 4.6, and `APLERR_OK` exactly when no check fails; in
particular an input with `FSTLength > FSTMaxLength` and `simMemSize` not a multiple of
32 yields `APLERR_FSTLENGTH`, not `APLERR_SIMMEMSIZE_UNALIGNED`. -/
theorem apploaderValidator_first_failing (c : SectionCaps) (i : ApploaderInput) :
    ApploaderValidator c i = firstFailing (section46Checks c) i ∧
    (section46Checks c).map Check.code = section46Codes ∧
    (∀ (n : Nat) (k : Check), (section46Checks c)[n]? = some k →
      (ApploaderValidator c i = k.code ↔
        (k.fails i = true ∧
          ∀ (m : Nat) (q : Check), m < n → (section46Checks c)[m]? = some q →
            q.fails i = false))) ∧
    (ApploaderValidator c i = APLERR_OK ↔ ∀ k ∈ section46Checks c, k.fails i = false) ∧
    ApploaderValidator c i ≠ APLERR_UNKNOWN ∧
    (ApploaderValidator c i = APLERR_FSTLENGTH ↔ i.bb.FSTMaxLength < i.bb.FSTLength) ∧
    (ApploaderValidator c i = APLERR_SIMMEMSIZE_UNALIGNED ↔
      (i.bb.FSTLength ≤ i.bb.FSTMaxLength ∧ i.bi.debugMonSize % 32 = 0 ∧
        i.bi.simMemSize % 32 ≠ 0)) ∧
    (i.bb.FSTMaxLength < i.bb.FSTLength → i.bi.simMemSize % 32 ≠ 0 →
      ApploaderValidator c i = APLERR_FSTLENGTH ∧
      ApploaderValidator c i ≠ APLERR_SIMMEMSIZE_UNALIGNED) := by
  have hcodes : (section46Checks c).map Check.code = section46Codes := rfl
  have hnd : ((section46Checks c).map Check.code).Nodup := by rw [hcodes]; decide
  have hok : APLERR_OK ∉ (section46Checks c).map Check.code := by rw [hcodes]; decide
  have heq := apploaderValidator_eq_firstFailing c i
  have hpos := firstFailing_eq_iff (section46Checks c) i hnd hok
  have h1 : ApploaderValidator c i = APLERR_FSTLENGTH ↔
      i.bb.FSTMaxLength < i.bb.FSTLength := by
    rw [heq]
    have := hpos 0 ⟨failsFSTLength, APLERR_FSTLENGTH⟩ rfl
    simpa [failsFSTLength] using this
  refine ⟨heq, hcodes, ?_, ?_, ?_, h1, ?_, ?_⟩
  · rw [heq]; exact hpos
  · rw [heq]; exact firstFailing_ok_iff _ i hok
  · rw [heq]
    intro hu
    rcases firstFailing_mem (section46Checks c) i with hm | hm
    · rw [hu] at hm; exact absurd hm (by decide)
    · rw [hu, hcodes] at hm; exact absurd hm (by decide)
  · rw [heq]
    have := hpos 2 ⟨failsSimMemAlign, APLERR_SIMMEMSIZE_UNALIGNED⟩ rfl
    rw [this]
    constructor
    · rintro ⟨h3, hb⟩
      have a0 := hb 0 ⟨failsFSTLength, APLERR_FSTLENGTH⟩ (by decide) rfl
      have a1 := hb 1 ⟨failsDebugMonAlign, APLERR_DEBUGMONSIZE_UNALIGNED⟩ (by decide) rfl
      simp only [failsFSTLength, failsDebugMonAlign, failsSimMemAlign, bne_iff_ne, ne_eq,
        decide_eq_false_iff_not, bne_eq_false_iff_eq, not_lt] at a0 a1 h3
      exact ⟨a0, a1, h3⟩
    · rintro ⟨a0, a1, h3⟩
      refine ⟨by simpa [failsSimMemAlign] using h3, ?_⟩
      intro m q hm hq
      have hm3 : m = 0 ∨ m = 1 := by omega
      rcases hm3 with rfl | rfl
      · simp only [section46Checks, List.getElem?_cons_zero, Option.some.injEq] at hq
        subst hq
        simpa [failsFSTLength] using a0
      · simp only [section46Checks, List.getElem?_cons_succ, List.getElem?_cons_zero,
          Option.some.injEq] at hq
        subst hq
        simpa [failsDebugMonAlign] using a1
  · intro hf _
    have hr := h1.mpr hf
    exact ⟨hr, by rw [hr]; decide⟩

/-- C6 at a concrete input that violates conditions 1 and 3 at once. -/
theorem apploaderValidator_first_failing_witness :
    failsFSTLength inputFailing1And3 = true ∧
    failsSimMemAlign inputFailing1And3 = true ∧
    ApploaderValidator capsExample inputFailing1And3 = APLERR_FSTLENGTH ∧
    ApploaderValidator capsExample inputFailing1And3 ≠ APLERR_SIMMEMSIZE_UNALIGNED :=
  ⟨by decide, by decide,
   (apploaderValidator_first_failing capsExample inputFailing1And3).2.2.2.2.2.2.2
     (by decide) (by decide)⟩

end RvtH
